import Mathlib

/-!
# Verification of the hauge-restaurant validation / authentication core

Shallow embedding of the TypeScript sources:
* `src/routes/users.ts`, `src/routes/posts.ts` — resource handlers,
* `src/middleware/user-validation.ts` — zod-based user validators,
* `src/middleware/auth-validation.ts` — login/registration validators and
  the bearer-token middleware `authenticateToken`,
* `src/utils/jwt.ts` — token codec wrapping the `jsonwebtoken` library.

External collaborators (the MySQL pool, the `zod` and `jsonwebtoken`
libraries, JavaScript's `Number` conversion) are modelled by executable Lean
functions faithful to their documented behaviour on the fragment the
handlers exercise; each such model carries a doc comment saying what it
models.  JSON payload fields are modelled as `Option String` (a missing
field is `none`); non-string JSON values, which zod's `z.string()` rejects,
are outside the modelled fragment.
-/

namespace HaugeRestaurant

/-! ## JSON values, response bodies, HTTP responses -/

/-- A JSON scalar as it appears in this API's responses. -/
inductive JVal where
  | s (v : String)
  | n (v : Nat)
deriving DecidableEq, Repr

/-- A response body: a JSON object, an array of objects, a validation-error
object `{error: "Validation failed", details: [...]}`, or an empty body. -/
inductive Body where
  | obj (fields : List (String × JVal))
  | arr (rows : List (List (String × JVal)))
  | validationFailed (details : List String)
  | empty
deriving DecidableEq, Repr

/-- An HTTP response: status code plus body. -/
structure Response where
  status : Nat
  body : Body
deriving DecidableEq, Repr

/-- `{key: msg}` bodies such as `{message: "Internal server error"}` or
`{error: "Invalid user ID"}`. -/
def msgBody (key msg : String) : Body := .obj [(key, .s msg)]

/-- Does a body contain a field named `k` (at top level, or inside any row
of an array body)? -/
def bodyHasKey (k : String) : Body → Bool
  | .obj fields => fields.any (fun f => f.1 = k)
  | .arr rows => rows.any (fun fields => fields.any (fun f => f.1 = k))
  | _ => false

/-! ## The zod email format

`z.email(...)` in zod v4 validates against the default regex
`^(?!\.)(?!.*\.\.)([A-Za-z0-9_'+\-\.]*)[A-Za-z0-9_+-]@([A-Za-z0-9][A-Za-z0-9\-]*\.)+[A-Za-z]{2,}$`.
Neither character class contains `@`, so a matching string splits uniquely
as `local@domain`; the functions below implement the three regex parts
(local shape, no-double-dot lookahead, domain shape) directly. -/

/-- Split a character list at every occurrence of `c` (the semantics of
`String.splitOn` with a one-character separator). -/
def splitOnChar (c : Char) : List Char → List (List Char)
  | [] => [[]]
  | d :: rest =>
    match splitOnChar c rest with
    | [] => [[]]
    | h :: t => if d = c then [] :: h :: t else (d :: h) :: t

/-- Characters allowed anywhere in the local part: `[A-Za-z0-9_'+\-\.]`. -/
def isLocalChar (c : Char) : Bool :=
  c.isAlphanum || c = '_' || c.toNat = 39 || c = '+' || c = '-' || c = '.'

/-- Characters allowed as the final local-part character: `[A-Za-z0-9_+-]`. -/
def isLocalLastChar (c : Char) : Bool :=
  c.isAlphanum || c = '_' || c = '+' || c = '-'

/-- The `(?!.*\.\.)` lookahead: no two consecutive dots. -/
def noDoubleDot : List Char → Bool
  | [] => true
  | [_] => true
  | a :: b :: rest => !(a = '.' && b = '.') && noDoubleDot (b :: rest)

/-- Local part: nonempty, all chars in the local class, not starting with a
dot, last char in the restricted class. -/
def emailLocalOk (l : List Char) : Bool :=
  match l with
  | [] => false
  | c :: _ =>
    !(c = '.') && l.all isLocalChar &&
      (match l.getLast? with
       | some last => isLocalLastChar last
       | none => false)

/-- A non-final domain label: `[A-Za-z0-9][A-Za-z0-9\-]*`. -/
def emailLabelOk (l : List Char) : Bool :=
  match l with
  | [] => false
  | c :: rest => c.isAlphanum && rest.all (fun d => d.isAlphanum || d = '-')

/-- Domain: `([A-Za-z0-9][A-Za-z0-9\-]*\.)+[A-Za-z]{2,}`. -/
def emailDomainOk (d : List Char) : Bool :=
  match (splitOnChar '.' d).reverse with
  | [] => false
  | [_] => false
  | tld :: rest =>
    (2 ≤ tld.length && tld.all Char.isAlpha) && rest.all emailLabelOk

/-- Model of zod v4's default `z.email()` check. -/
def emailValid (s : String) : Bool :=
  noDoubleDot s.data &&
    match splitOnChar '@' s.data with
    | [lpart, domain] => emailLocalOk lpart && emailDomainOk domain
    | _ => false

/-! ## Validators (`src/middleware/user-validation.ts`,
`src/middleware/auth-validation.ts`)

Each validator middleware runs `schema.safeParse` on the request body and
either calls `next()` (accept) or answers 400 with the issue messages. -/

/-- Outcome of a validator middleware. -/
inductive ValidationResult where
  | accept
  | reject (details : List String)
deriving DecidableEq, Repr

/-- Accept when `safeParse` collected no issue, reject with the collected
messages otherwise. -/
def resultOf : List String → ValidationResult
  | [] => .accept
  | issues => .reject issues

/-- A `{username?, email?}` JSON body, fields modelled as present-or-absent
strings. -/
structure UserPayload where
  username : Option String
  email : Option String
deriving DecidableEq, Repr

/-- zod v4's message for a missing required string field. -/
def missingFieldMsg : String := "Invalid input: expected string, received undefined"

/-- Issues raised by `requiredUserDataSchema` for the `username` field:
`z.string().min(2, ...).max(50, ...)`. -/
def usernameIssues (u : Option String) : List String :=
  match u with
  | none => [missingFieldMsg]
  | some s =>
    (if s.length < 2 then ["Username must be at least 2 characters"] else []) ++
      (if 50 < s.length then ["Username must not exceed 50 characters"] else [])

/-- Issues raised by `requiredUserDataSchema` for the `email` field:
`z.email("Email must be a valid email")`. -/
def emailIssues (e : Option String) : List String :=
  match e with
  | none => [missingFieldMsg]
  | some s => if emailValid s then [] else ["Email must be a valid email"]

/-- `validateRequiredUserData`: `requiredUserDataSchema.safeParse` on the
body, 400 with the issue messages on failure. -/
def validateRequiredUserData (p : UserPayload) : ValidationResult :=
  resultOf (usernameIssues p.username ++ emailIssues p.email)

/-- Issues raised by the optional-update schema for `username`:
`z.string().min(2, ...).max(50, "Username must be at least 50 characters").optional()`
(an absent field raises nothing). -/
def usernameIssuesOpt (u : Option String) : List String :=
  match u with
  | none => []
  | some s =>
    (if s.length < 2 then ["Username must be at least 2 characters"] else []) ++
      (if 50 < s.length then ["Username must be at least 50 characters"] else [])

/-- Issues raised by the optional-update schema for `email`:
`z.string("Email must be a valid email").optional()` — note this is
`z.string`, not `z.email`: any present string passes, and the message is
only zod's wrong-type message. -/
def emailIssuesOpt (e : Option String) : List String :=
  match e with
  | none => []
  | some _ => []

/-- `validatePartialUserData`: safeParse of the optional-update schema
(both fields optional) on the body, 400 with issue messages on failure. -/
def validatePartialUserData (p : UserPayload) : ValidationResult :=
  resultOf (usernameIssuesOpt p.username ++ emailIssuesOpt p.email)

/-- A `{email?, password?}` login body. -/
structure LoginPayload where
  email : Option String
  password : Option String
deriving DecidableEq, Repr

/-- Issues raised by `loginSchema` for the `password` field: `z.string()` —
any present string (empty included) passes. -/
def loginPasswordIssues (p : Option String) : List String :=
  match p with
  | none => [missingFieldMsg]
  | some _ => []

/-- `validateLogin`: `loginSchema.safeParse` (`email: z.email(...)`,
`password: z.string()`) on the body, 400 with issue messages on failure. -/
def validateLogin (p : LoginPayload) : ValidationResult :=
  resultOf (emailIssues p.email ++ loginPasswordIssues p.password)

/-- The `userIdSchema` rule: `id` matches `^\d+$` (one or more digits,
nothing else). -/
def userIdPatternOk (s : String) : Bool :=
  !s.data.isEmpty && s.data.all Char.isDigit

/-- `validateUserId`: `userIdSchema.safeParse(req.params)`, 400 with
`"ID must be a positive number"` on failure. -/
def validateUserId (idParam : String) : ValidationResult :=
  if userIdPatternOk idParam then .accept
  else .reject ["ID must be a positive number"]

/-! ## JavaScript `Number(string)` conversion

`users.ts` converts `req.params.id` with `Number(...)`.  `jsNumber` models
the conversion on the fragment the routes exercise: whitespace trimming,
the empty string (`0`), hex literals `0x…`, and decimal literals with
optional sign, fraction and exponent.  `none` stands for `NaN`.  Binary
and octal literals and the `Infinity` forms are outside the modelled
fragment. -/

/-- A finite JS number as an exact rational, kept normalized (lowest
terms, positive denominator; zero is `⟨0, 1⟩`).  Every value below is
built through `JsNum.mk'`, so structural equality is value equality. -/
structure JsNum where
  num : Int
  den : Nat
deriving DecidableEq, Repr

/-- Euclid's algorithm with structural fuel (`m + 1` steps always
suffice), so that it reduces inside the kernel. -/
def gcdFuel : Nat → Nat → Nat → Nat
  | 0, _, n => n
  | _ + 1, 0, n => n
  | fuel + 1, m, n => gcdFuel fuel (n % m) m

/-- Greatest common divisor via `gcdFuel`. -/
def natGcd (m n : Nat) : Nat := gcdFuel (m + 1) m n

/-- Normalizing constructor (expects `0 < den`). -/
def JsNum.mk' (num : Int) (den : Nat) : JsNum :=
  let g := natGcd num.natAbs den
  if g = 0 then ⟨0, 1⟩
  else
    let a := num.natAbs / g
    ⟨if num < 0 then -(a : Int) else (a : Int), den / g⟩

/-- Embedding of an integer column value for comparison with a bound
parameter. -/
def JsNum.ofNat (n : Nat) : JsNum := ⟨n, 1⟩

/-- Negation (preserves normalization). -/
def JsNum.neg (q : JsNum) : JsNum := ⟨-q.num, q.den⟩

/-- JS whitespace trimmed by `Number` (ASCII fragment). -/
def isJsWs (c : Char) : Bool :=
  c = ' ' || c = '\t' || c = '\n' || c = '\r'

/-- Decimal digit run to a natural number. -/
def digitsToNat (l : List Char) : Nat :=
  l.foldl (fun acc c => acc * 10 + (c.toNat - 48)) 0

/-- Hex digit predicate for `0x…` literals. -/
def isHexDigit (c : Char) : Bool :=
  c.isDigit || ('a' ≤ c && c ≤ 'f') || ('A' ≤ c && c ≤ 'F')

/-- Hex digit value. -/
def hexVal (c : Char) : Nat :=
  if c.isDigit then c.toNat - 48
  else if 'a' ≤ c && c ≤ 'f' then c.toNat - 87
  else c.toNat - 55

/-- Parse the digits of a `0x…` literal (must be nonempty, all hex). -/
def hexParse (cs : List Char) : Option JsNum :=
  if cs.isEmpty || !cs.all isHexDigit then none
  else some (.ofNat (cs.foldl (fun a c => a * 16 + hexVal c) 0))

/-- Parse the exponent suffix after `e`/`E` (optional sign, then digits)
to the signed exponent value. -/
def expParse (cs : List Char) : Option Int :=
  let (sgn, t) : Int × List Char :=
    match cs with
    | '+' :: t => (1, t)
    | '-' :: t => (-1, t)
    | t => (1, t)
  let (ds, r) := t.span Char.isDigit
  if ds.isEmpty || !r.isEmpty then none
  else some (sgn * (digitsToNat ds : Int))

/-- Parse an unsigned decimal literal `digits [. digits] [e[sign]digits]`:
mantissa `intD.fracD` scaled by ten to the signed exponent. -/
def decParse (cs : List Char) : Option JsNum :=
  let (intD, r1) := cs.span Char.isDigit
  let (fracD, r2) : List Char × List Char :=
    match r1 with
    | '.' :: t => t.span Char.isDigit
    | _ => ([], r1)
  if intD.length + fracD.length = 0 then none
  else
    let mant : Nat := digitsToNat (intD ++ fracD)
    let shift : Option Int :=
      match r2 with
      | [] => some (-(fracD.length : Int))
      | 'e' :: t => (expParse t).map (fun e => e - (fracD.length : Int))
      | 'E' :: t => (expParse t).map (fun e => e - (fracD.length : Int))
      | _ => none
    shift.map fun k =>
      if 0 ≤ k then JsNum.mk' ((mant : Int) * (10 : Int) ^ k.toNat) 1
      else JsNum.mk' (mant : Int) ((10 : Nat) ^ (-k).toNat)

/-- Model of JS `Number(s)` on the fragment above (`none` = `NaN`). -/
def jsNumber (s : String) : Option JsNum :=
  let cs := ((s.data.dropWhile isJsWs).reverse.dropWhile isJsWs).reverse
  match cs with
  | [] => some (.ofNat 0)
  | '0' :: 'x' :: rest => hexParse rest
  | '0' :: 'X' :: rest => hexParse rest
  | '+' :: rest => decParse rest
  | '-' :: rest => (decParse rest).map JsNum.neg
  | rest => decParse rest

/-! ## Data model: stored rows

The repository ships no schema file; the row shapes follow the
`interfaces.ts` interfaces: `User` has `id`, `username`, `email` and an
optional `password` (the registration flow, an external collaborator here,
stores a password hash in the same table), `Post` has `id`, `title`,
`content`, `user_id`, `created_at`. -/

/-- A stored `users` row.  `password` is the optional stored hash column. -/
structure UserRow where
  id : Nat
  username : String
  email : String
  password : Option String
deriving DecidableEq, Repr

/-- A stored `posts` row; `created_at` is the creation timestamp. -/
structure PostRow where
  id : Nat
  title : String
  content : String
  user_id : Nat
  created_at : Nat
deriving DecidableEq, Repr

/-- A joined `posts INNER JOIN users` row (`PostWithUser`). -/
structure PostWithUserRow where
  id : Nat
  title : String
  content : String
  user_id : Nat
  created_at : Nat
  username : String
  email : String
deriving DecidableEq, Repr

/-- `SELECT * FROM users` serializes every column of the row, the stored
password hash included when the column is non-NULL. -/
def userRowJson (u : UserRow) : List (String × JVal) :=
  [("id", .n u.id), ("username", .s u.username), ("email", .s u.email)] ++
    match u.password with
    | some p => [("password", .s p)]
    | none => []

/-- Serialization of a selected `posts` row. -/
def postRowJson (p : PostRow) : List (String × JVal) :=
  [("id", .n p.id), ("title", .s p.title), ("content", .s p.content),
   ("user_id", .n p.user_id), ("created_at", .n p.created_at)]

/-- Serialization of a joined row. -/
def postWithUserRowJson (r : PostWithUserRow) : List (String × JVal) :=
  [("id", .n r.id), ("title", .s r.title), ("content", .s r.content),
   ("user_id", .n r.user_id), ("created_at", .n r.created_at),
   ("username", .s r.username), ("email", .s r.email)]

/-! ## Storage queries

MySQL returns rows of an unordered query in storage order; the join is
modelled as a scan of `posts` in storage order, each post paired with its
matching `users` rows.  `ORDER BY posts.created_at DESC` is modelled by
`List.mergeSort` with the comparison `q.created_at ≤ p.created_at`. -/

/-- Join one post with the users it references. -/
def joinPost (users : List UserRow) (p : PostRow) : List PostWithUserRow :=
  (users.filter (fun u => u.id = p.user_id)).map fun u =>
    ⟨p.id, p.title, p.content, p.user_id, p.created_at, u.username, u.email⟩

/-- `posts INNER JOIN users ON posts.user_id = users.id`, storage order. -/
def joinAll (users : List UserRow) (posts : List PostRow) : List PostWithUserRow :=
  posts.flatMap (joinPost users)

/-- `ORDER BY posts.created_at DESC` comparison on plain post rows. -/
def postDescLE (p q : PostRow) : Bool := q.created_at ≤ p.created_at

/-- `ORDER BY posts.created_at DESC` comparison on joined rows. -/
def postWithUserDescLE (p q : PostWithUserRow) : Bool := q.created_at ≤ p.created_at

/-- Query of `GET /posts` (`posts.ts`): join all posts with their authors,
`ORDER BY posts.created_at DESC`. -/
def allPostsQuery (users : List UserRow) (posts : List PostRow) : List PostWithUserRow :=
  (joinAll users posts).mergeSort postWithUserDescLE

/-- Query of `GET /users/:id/posts`: posts of one user,
`ORDER BY posts.created_at DESC`.  The bound parameter is the JS number
parsed from the path (compared against the integer `user_id` column). -/
def userPostsQuery (uid : JsNum) (posts : List PostRow) : List PostRow :=
  (posts.filter (fun p => JsNum.ofNat p.user_id = uid)).mergeSort postDescLE

/-- Query of `GET /users/:id/posts-with-user`: the join filtered by
`WHERE users.id = ?` — note: no `ORDER BY` clause, rows keep storage
order. -/
def userPostsWithUserQuery (uid : JsNum) (users : List UserRow) (posts : List PostRow) :
    List PostWithUserRow :=
  (joinAll users posts).filter (fun r => JsNum.ofNat r.user_id = uid)

/-! ## Token codec (`src/utils/jwt.ts` over the `jsonwebtoken` library)

A signed token is modelled as its decoded payload `{userId, iat, exp}`
plus a signature value.  `jsonwebtoken` is an external collaborator; its
HMAC is modelled by the executable `macSign` (the relevant property being
that verification recomputes it deterministically from the secret and the
payload), `expiresIn: "24h"` adds 86400 seconds to `iat`, and `jwt.verify`
accepts only while the clock is strictly before `exp`.  `verifyToken`
wraps the library call in `try/catch` and returns `none` instead of
throwing — the model is a total function. -/

/-- A decoded bearer token: payload fields and signature. -/
structure Token where
  userId : Nat
  iat : Nat
  exp : Nat
  sig : Nat
deriving DecidableEq, Repr

/-- Deterministic signature of a payload under a secret (model of the
library's HMAC). -/
def macSign (secret userId iat exp : Nat) : Nat :=
  (((secret * 1000003 + userId) * 1000003 + iat) * 1000003 + exp) % 2147483647

/-- `generateToken(userId)`: `jwt.sign({userId}, secret, {expiresIn: "24h"})`
at clock time `now`. -/
def generateToken (secret now userId : Nat) : Token :=
  ⟨userId, now, now + 86400, macSign secret userId now (now + 86400)⟩

/-- `verifyToken(token)`: `jwt.verify(token, secret)` at clock time `now`,
with the catch-all returning `null` — signature mismatch or expiry yields
`none`, never an exception. -/
def verifyToken (secret now : Nat) (t : Token) : Option Nat :=
  if t.sig = macSign secret t.userId t.iat t.exp ∧ now < t.exp then some t.userId
  else none

/-! ## Authentication middleware (`authenticateToken` in
`auth-validation.ts`)

The middleware reads the `Authorization` header, checks the literal
`"Bearer "` scheme, passes `authHeader.substring(7)` to the token codec,
and either responds immediately (terminal failure) or attaches the
verified user id to the request and calls `next()`.  The codec it calls,
`verifyToken` from `jwt.ts`, operates on the wire string; it is passed
here as the function argument `verify`. -/

/-- Outcome of the middleware: an immediate terminal response, or control
passed on with the verified user id attached to the request. -/
inductive AuthResult where
  | reject (status : Nat) (error : String)
  | proceed (userId : Nat)
deriving DecidableEq, Repr

/-- `authenticateToken(req, res, next)` as a function of the
`Authorization` header (`none` = header absent). -/
def authenticateToken (verify : String → Option Nat) (header : Option String) :
    AuthResult :=
  match header with
  | none => .reject 401 "Access token required"
  | some h =>
    if !("Bearer ".data.isPrefixOf h.data) then
      .reject 401 "Token must be in format: Bearer <token>"
    else
      match verify (h.drop 7) with
      | none => .reject 403 "Invalid or expired token"
      | some userId => .proceed userId

/-! ## Resource handlers (`src/routes/users.ts`, `src/routes/posts.ts`)

Each handler is embedded as a function of the request pieces it reads,
the stored `users`/`posts` rows, and a flag `fail` saying whether the
storage call rejects (connectivity failure); mutating handlers return the
updated table alongside the response.  A result `Except.error ()` means
the storage rejection escaped the handler uncaught; handlers wrapped in
`try/catch` map it to a 500 response instead.

Handlers guarded by `validateUserId` see `Number(req.params.id)` of a
`^\d+$` string, i.e. a natural number (`pathId : Nat`).  `affectedRows`
of `UPDATE`/`DELETE ... WHERE id = ?` is modelled as the number of rows
matching the id (MySQL would additionally report 0 for an `UPDATE` that
rewrites identical values; no claim depends on that corner). -/

/-- The reused ownership-mismatch response of PUT/PATCH/DELETE. -/
def ownershipForbidden : Response :=
  ⟨403, msgBody "error" "Users can only update their own account"⟩

/-- The `catch` response of the `users.ts` handlers. -/
def usersInternalError : Response := ⟨500, msgBody "message" "Internal server error"⟩

/-- `AUTO_INCREMENT` id assignment for `INSERT INTO users`. -/
def nextUserId (db : List UserRow) : Nat :=
  db.foldl (fun m u => max m u.id) 0 + 1

/-- `POST /users` handler (after `validateRequiredUserData`): insert the
two columns, answer 201 with the object `{id, username, email}` built in
the handler. -/
def usersPostHandler (username email : String) (db : List UserRow) (fail : Bool) :
    Except Unit (Response × List UserRow) :=
  if fail then .ok (usersInternalError, db)
  else
    let uid := nextUserId db
    .ok (⟨201, .obj [("id", .n uid), ("username", .s username), ("email", .s email)]⟩,
      db ++ [⟨uid, username, email, none⟩])

/-- `GET /users` handler: `SELECT * FROM users`, rows serialized as
returned by storage. -/
def getUsersHandler (db : List UserRow) (fail : Bool) : Except Unit Response :=
  if fail then .ok usersInternalError
  else .ok ⟨200, .arr (db.map userRowJson)⟩

/-- `GET /users/:id` handler (after `validateUserId`): `SELECT * FROM
users WHERE id = ?`, 404 on no row, else the first row serialized as
returned by storage. -/
def getUserByIdHandler (pathId : Nat) (db : List UserRow) (fail : Bool) :
    Except Unit Response :=
  if fail then .ok usersInternalError
  else
    match db.filter (fun u => u.id = pathId) with
    | [] => .ok ⟨404, msgBody "message" "User not found"⟩
    | u :: _ => .ok ⟨200, .obj (userRowJson u)⟩

/-- Storage phase of the PUT handler: `UPDATE users SET username = ?,
email = ? WHERE id = ?`, then 404 on zero affected rows, else 200 with the
object `{id, username, email}` built in the handler. -/
def putStorage (pathId : Nat) (username email : String) (db : List UserRow)
    (fail : Bool) : Except Unit (Response × List UserRow) :=
  if fail then .ok (usersInternalError, db)
  else if db.countP (fun u => u.id = pathId) = 0 then
    .ok (⟨404, msgBody "message" "User not found"⟩, db)
  else
    .ok (⟨200, .obj [("id", .n pathId), ("username", .s username), ("email", .s email)]⟩,
      db.map fun u =>
        if u.id = pathId then { u with username := username, email := email } else u)

/-- `PUT /users/:id` handler (after `authenticateToken`, `validateUserId`,
`validateRequiredUserData`): ownership check first, then the storage
phase. -/
def putUserHandler (authId pathId : Nat) (username email : String)
    (db : List UserRow) (fail : Bool) : Except Unit (Response × List UserRow) :=
  if authId ≠ pathId then .ok (ownershipForbidden, db)
  else putStorage pathId username email db fail

/-- JS truthiness of an optional string field: present and nonempty. -/
def jsTruthy : Option String → Bool
  | some s => !s.data.isEmpty
  | none => false

/-- Row update performed by the PATCH `UPDATE`: only the truthy fields are
in the `SET` list. -/
def patchApply (pathId : Nat) (username email : Option String)
    (db : List UserRow) : List UserRow :=
  db.map fun u =>
    if u.id = pathId then
      { u with
        username := if jsTruthy username then username.getD u.username else u.username,
        email := if jsTruthy email then email.getD u.email else u.email }
    else u

/-- Storage phase of the PATCH handler.  With no truthy field the built
query reads `UPDATE users SET  WHERE id = ?` (empty `SET` list), which
MySQL rejects as a syntax error: `execute` throws and the handler's catch
answers 500.  Otherwise: update, 404 on zero affected rows, else re-fetch
`SELECT * FROM users WHERE id = ?` and answer 200 with `users[0]`. -/
def patchStorage (pathId : Nat) (username email : Option String)
    (db : List UserRow) (fail : Bool) : Except Unit (Response × List UserRow) :=
  if !jsTruthy username && !jsTruthy email then .ok (usersInternalError, db)
  else if fail then .ok (usersInternalError, db)
  else if db.countP (fun u => u.id = pathId) = 0 then
    .ok (⟨404, msgBody "message" "User not found"⟩, db)
  else
    let db2 := patchApply pathId username email db
    match db2.find? (fun u => u.id = pathId) with
    | some u => .ok (⟨200, .obj (userRowJson u)⟩, db2)
    | none => .ok (⟨200, .empty⟩, db2)

/-- `PATCH /users/:id` handler (after `authenticateToken`,
`validateUserId`, `validatePartialUserData`): ownership check first, then
the storage phase. -/
def patchUserHandler (authId pathId : Nat) (username email : Option String)
    (db : List UserRow) (fail : Bool) : Except Unit (Response × List UserRow) :=
  if authId ≠ pathId then .ok (ownershipForbidden, db)
  else patchStorage pathId username email db fail

/-- Storage phase of the DELETE handler: `DELETE FROM users WHERE id = ?`,
404 on zero affected rows, else 204 with empty body. -/
def deleteStorage (pathId : Nat) (db : List UserRow) (fail : Bool) :
    Except Unit (Response × List UserRow) :=
  if fail then .ok (usersInternalError, db)
  else if db.countP (fun u => u.id = pathId) = 0 then
    .ok (⟨404, msgBody "message" "User not found"⟩, db)
  else .ok (⟨204, .empty⟩, db.filter (fun u => u.id ≠ pathId))

/-- `DELETE /users/:id` handler (after `authenticateToken`,
`validateUserId`): ownership check first, then the storage phase. -/
def deleteUserHandler (authId pathId : Nat) (db : List UserRow) (fail : Bool) :
    Except Unit (Response × List UserRow) :=
  if authId ≠ pathId then .ok (ownershipForbidden, db)
  else deleteStorage pathId db fail

/-- `GET /users/:id/posts` route: no validator middleware; the handler
itself computes `Number(req.params.id)`, answers 400 only on `NaN`, and
otherwise queries with the parsed number; the whole body is wrapped in
`try/catch` mapping a storage rejection to 500. -/
def userPostsRoute (idParam : String) (posts : List PostRow) (fail : Bool) :
    Except Unit Response :=
  match jsNumber idParam with
  | none => .ok ⟨400, msgBody "error" "Invalid user ID"⟩
  | some q =>
    if fail then .ok ⟨500, msgBody "error" "Failed to fetch user posts"⟩
    else .ok ⟨200, .arr ((userPostsQuery q posts).map postRowJson)⟩

/-- `GET /users/:id/posts-with-user` route: no validator, no `try/catch` —
a storage rejection escapes the handler (`Except.error ()`).  A `NaN`
bound parameter matches no row (`WHERE users.id = NaN`). -/
def userPostsWithUserRoute (idParam : String) (users : List UserRow)
    (posts : List PostRow) (fail : Bool) : Except Unit Response :=
  if fail then .error ()
  else
    let rows :=
      match jsNumber idParam with
      | none => []
      | some q => userPostsWithUserQuery q users posts
    .ok ⟨200, .arr (rows.map postWithUserRowJson)⟩

/-- `GET /posts` route (`posts.ts`): the ordered join, `try/catch` mapping
a storage rejection to 500. -/
def postsRoute (users : List UserRow) (posts : List PostRow) (fail : Bool) :
    Except Unit Response :=
  if fail then .ok ⟨500, msgBody "error" "Failed to fetch posts"⟩
  else .ok ⟨200, .arr ((allPostsQuery users posts).map postWithUserRowJson)⟩

end HaugeRestaurant
namespace HaugeRestaurant

/-! ## Generic helper lemmas and fixtures -/

/-- Decidable equality of handler outcomes, for concrete evaluation. -/
instance {e a : Type} [DecidableEq e] [DecidableEq a] : DecidableEq (Except e a) := fun x y =>
  match x, y with
  | .ok u, .ok v =>
    if h : u = v then .isTrue (by rw [h]) else .isFalse (by intro hc; cases hc; exact h rfl)
  | .error u, .error v =>
    if h : u = v then .isTrue (by rw [h]) else .isFalse (by intro hc; cases hc; exact h rfl)
  | .ok _, .error _ => .isFalse (by intro hc; cases hc)
  | .error _, .ok _ => .isFalse (by intro hc; cases hc)

/-- A validator accepts exactly when no issue was collected. -/
lemma resultOf_eq_accept (l : List String) : resultOf l = .accept ↔ l = [] := by
  cases l <;> simp [resultOf]

/-- Does a (possibly escaped) read response contain a given JSON key? -/
def respHasKey (k : String) : Except Unit Response → Bool
  | .ok r => bodyHasKey k r.body
  | .error _ => false

/-- Same, for mutating handlers that also return the table. -/
def mutRespHasKey (k : String) : Except Unit (Response × List UserRow) → Bool
  | .ok (r, _) => bodyHasKey k r.body
  | .error _ => false

/-- The descending comparison on plain post rows is transitive. -/
lemma postDescLE_trans : ∀ a b c : PostRow, postDescLE a b → postDescLE b c → postDescLE a c := by
  intro a b c hab hbc
  simp only [postDescLE, decide_eq_true_eq] at *
  omega

/-- The descending comparison on plain post rows is total. -/
lemma postDescLE_total : ∀ a b : PostRow, postDescLE a b || postDescLE b a := by
  intro a b
  simp only [postDescLE, Bool.or_eq_true, decide_eq_true_eq]
  omega

/-- The descending comparison on joined rows is transitive. -/
lemma postWithUserDescLE_trans :
    ∀ a b c : PostWithUserRow,
      postWithUserDescLE a b → postWithUserDescLE b c → postWithUserDescLE a c := by
  intro a b c hab hbc
  simp only [postWithUserDescLE, decide_eq_true_eq] at *
  omega

/-- The descending comparison on joined rows is total. -/
lemma postWithUserDescLE_total :
    ∀ a b : PostWithUserRow, postWithUserDescLE a b || postWithUserDescLE b a := by
  intro a b
  simp only [postWithUserDescLE, Bool.or_eq_true, decide_eq_true_eq]
  omega

/-- A stored user whose row carries a password hash. -/
def pwUser : UserRow := ⟨1, "ab", "a@b.com", some "$2b$10$stored-password-hash"⟩

/-- A stored user for the ordering counterexample. -/
def orderUser : UserRow := ⟨1, "u", "u@x.com", none⟩

/-- Two posts of user 1 stored in ascending creation order. -/
def orderPosts : List PostRow := [⟨1, "t1", "c1", 1, 10⟩, ⟨2, "t2", "c2", 1, 20⟩]

/-- A single stored user, target of the empty PATCH. -/
def patchDb : List UserRow := [⟨1, "ab", "a@b.com", none⟩]

/-! ## Claims -/

/-- **C1**: the `POST /users` response indeed carries only
`{id, username, email}`, but the `GET /users` and `GET /users/:id`
handlers return the raw `SELECT *` rows, so for a stored user whose row
carries a password hash the response contains a `password` field —
contradicting the code's own OpenAPI `User` schema (id/username/email
only) and its password-free `UserResponse` interface.  Evaluation at the
failing input. -/
theorem C1_read_responses_expose_password :
    respHasKey "password" (getUsersHandler [pwUser] false) = true ∧
    respHasKey "password" (getUserByIdHandler 1 [pwUser] false) = true ∧
    mutRespHasKey "password" (usersPostHandler "cd" "c@d.com" [pwUser] false) = false := by
  decide

/-- **C2**: the optional-update validator does not apply the email-format
rule — `partialUserDataSchema` uses `z.string(...)` where the required
schema uses `z.email(...)` — so a present non-email string is accepted,
while the username length rule is applied as claimed.  Evaluation at the
failing input `{email: "not-an-email"}`. -/
theorem C2_no_email_format_rule_on_update :
    validatePartialUserData ⟨none, some "not-an-email"⟩ = .accept ∧
    emailValid "not-an-email" = false ∧
    validateRequiredUserData ⟨some "ab", some "not-an-email"⟩ =
      .reject ["Email must be a valid email"] ∧
    validatePartialUserData ⟨some "a", some "x"⟩ =
      .reject ["Username must be at least 2 characters"] ∧
    validatePartialUserData ⟨some "ab", some "x@y.com"⟩ = .accept := by
  decide

/-- **C3 counterexample**: with two stored posts in ascending creation
order, `GET /users/1/posts-with-user` returns them in storage order, not
by creation timestamp descending — the claim fails for this endpoint. -/
theorem C3_posts_with_user_unordered :
    userPostsWithUserRoute "1" [orderUser] orderPosts false =
      .ok ⟨200, .arr ((userPostsWithUserQuery (.ofNat 1) [orderUser] orderPosts).map
        postWithUserRowJson)⟩ ∧
    userPostsWithUserQuery (.ofNat 1) [orderUser] orderPosts =
      [⟨1, "t1", "c1", 1, 10, "u", "u@x.com"⟩, ⟨2, "t2", "c2", 1, 20, "u", "u@x.com"⟩] ∧
    ¬ List.Sorted (fun a b : PostWithUserRow => b.created_at ≤ a.created_at)
      (userPostsWithUserQuery (.ofNat 1) [orderUser] orderPosts) := by
  refine ⟨by decide, by decide, ?_⟩
  decide

/-- **C3 amended**: `GET /posts` and `GET /users/:id/posts` return posts
ordered by creation timestamp descending (a permutation of the matching
rows); `GET /users/:id/posts-with-user` issues no `ORDER BY` and returns
the matching join rows in storage order — a sublist of the join scan. -/
theorem C3_listing_order (users : List UserRow) (posts : List PostRow) (uid : JsNum) :
    List.Sorted (fun a b : PostWithUserRow => b.created_at ≤ a.created_at)
      (allPostsQuery users posts) ∧
    List.Perm (allPostsQuery users posts) (joinAll users posts) ∧
    List.Sorted (fun a b : PostRow => b.created_at ≤ a.created_at)
      (userPostsQuery uid posts) ∧
    List.Perm (userPostsQuery uid posts)
      (posts.filter (fun p => JsNum.ofNat p.user_id = uid)) ∧
    List.Sublist (userPostsWithUserQuery uid users posts) (joinAll users posts) := by
  refine ⟨?_, List.mergeSort_perm _ _, ?_, List.mergeSort_perm _ _, List.filter_sublist _⟩
  · exact (List.sorted_mergeSort postWithUserDescLE_trans postWithUserDescLE_total
      (joinAll users posts)).imp (fun h => by simpa [postWithUserDescLE] using h)
  · exact (List.sorted_mergeSort postDescLE_trans postDescLE_total
      (posts.filter (fun p => JsNum.ofNat p.user_id = uid))).imp
      (fun h => by simpa [postDescLE] using h)

/-- **C4 counterexample**: for an empty PATCH body from the owner of an
existing user the validator accepts and the stored row is unchanged, but
the request does not succeed: the handler builds an `UPDATE` with an empty
`SET` list, storage rejects it, and the caught error answers 500. -/
theorem C4_empty_patch_hits_500 :
    validatePartialUserData ⟨none, none⟩ = .accept ∧
    patchUserHandler 1 1 none none patchDb false = .ok (usersInternalError, patchDb) ∧
    usersInternalError = ⟨500, msgBody "message" "Internal server error"⟩ := by
  refine ⟨by decide, by decide, rfl⟩

/-- **C4 amended**: for every owner-authenticated empty-payload PATCH the
partial-update validator accepts and the stored table is unchanged, but
the request takes the caught-error path and answers 500 (empty `SET`
clause rejected by storage), rather than succeeding. -/
theorem C4_empty_patch_behavior (authId : Nat) (db : List UserRow) :
    validatePartialUserData ⟨none, none⟩ = .accept ∧
    patchUserHandler authId authId none none db false = .ok (usersInternalError, db) := by
  refine ⟨rfl, ?_⟩
  simp [patchUserHandler, patchStorage, jsTruthy]

/-- **C5 counterexample**: the login validator accepts a payload whose
password is the empty string (`z.string()` has no non-emptiness check),
which the claim says is rejected. -/
theorem C5_empty_password_accepted :
    validateLogin ⟨some "a@b.com", some ""⟩ = .accept ∧
    emailValid "a@b.com" = true := by
  decide

/-- **C5 amended**: the login validator accepts exactly the payloads with
a syntactically valid email and a present string password — the empty
string included; it rejects an invalid email or a missing password, and
applies no complexity or non-emptiness rule at login. -/
theorem C5_login_accepts_iff (p : LoginPayload) :
    validateLogin p = .accept ↔
      ((∃ e, p.email = some e ∧ emailValid e = true) ∧ p.password.isSome = true) := by
  obtain ⟨e, pw⟩ := p
  cases e with
  | none =>
    cases pw <;>
      simp [validateLogin, emailIssues, loginPasswordIssues, resultOf_eq_accept, missingFieldMsg]
  | some e =>
    cases pw with
    | none =>
      by_cases he : emailValid e <;>
        simp [validateLogin, emailIssues, loginPasswordIssues, resultOf_eq_accept, he,
          missingFieldMsg]
    | some pw =>
      by_cases he : emailValid e <;>
        simp [validateLogin, emailIssues, loginPasswordIssues, resultOf_eq_accept, he]

/-- **C6**: the other handlers wrap their storage calls in `try/catch` and
map a rejection to a 500 response, but `GET /users/:id/posts-with-user`
has no `try/catch`: the storage rejection escapes the handler.  Evaluation
at the failing input (storage rejecting on each route). -/
theorem C6_posts_with_user_escapes :
    userPostsWithUserRoute "1" [] [] true = .error () ∧
    getUsersHandler [] true = .ok usersInternalError ∧
    getUserByIdHandler 1 [] true = .ok usersInternalError ∧
    userPostsRoute "1" [] true = .ok ⟨500, msgBody "error" "Failed to fetch user posts"⟩ ∧
    postsRoute [] [] true = .ok ⟨500, msgBody "error" "Failed to fetch posts"⟩ ∧
    usersPostHandler "ab" "a@b.com" [] true = .ok (usersInternalError, []) ∧
    putUserHandler 1 1 "ab" "a@b.com" [] true = .ok (usersInternalError, []) ∧
    patchUserHandler 1 1 (some "ab") none [] true = .ok (usersInternalError, []) ∧
    deleteUserHandler 1 1 [] true = .ok (usersInternalError, []) := by
  decide

/-- **C7**: on PUT, PATCH and DELETE of `/users/:id`, an authenticated id
different from the path id yields the literal 403 ownership response with
the table untouched; an equal id passes the ownership gate and the handler
continues with the storage phase. -/
theorem C7_ownership_gate (authId pathId : Nat) (username email : String)
    (pu pe : Option String) (db : List UserRow) (fail : Bool) :
    (authId ≠ pathId →
      putUserHandler authId pathId username email db fail = .ok (ownershipForbidden, db) ∧
      patchUserHandler authId pathId pu pe db fail = .ok (ownershipForbidden, db) ∧
      deleteUserHandler authId pathId db fail = .ok (ownershipForbidden, db)) ∧
    (authId = pathId →
      putUserHandler authId pathId username email db fail =
        putStorage pathId username email db fail ∧
      patchUserHandler authId pathId pu pe db fail = patchStorage pathId pu pe db fail ∧
      deleteUserHandler authId pathId db fail = deleteStorage pathId db fail) ∧
    ownershipForbidden =
      ⟨403, .obj [("error", .s "Users can only update their own account")]⟩ := by
  refine ⟨fun h => ⟨?_, ?_, ?_⟩, fun h => ?_, rfl⟩
  · simp [putUserHandler, h]
  · simp [patchUserHandler, h]
  · simp [deleteUserHandler, h]
  · subst h
    exact ⟨by simp [putUserHandler], by simp [patchUserHandler], by simp [deleteUserHandler]⟩

/-- **C7 witness**: ownership mismatch 5 ≠ 7 on PUT yields the literal 403
with no mutation; matching ids on DELETE continue to the storage phase. -/
theorem C7_ownership_gate_witness :
    putUserHandler 5 7 "ab" "a@b.com" [] false = .ok (ownershipForbidden, []) ∧
    deleteUserHandler 5 5 [] false = deleteStorage 5 [] false :=
  ⟨((C7_ownership_gate 5 7 "ab" "a@b.com" none none [] false).1 (by decide)).1,
   ((C7_ownership_gate 5 5 "ab" "a@b.com" none none [] false).2.1 rfl).2.2⟩

/-- **C8**: the middleware is the four-outcome machine of the spec: no
header → 401 "Access token required"; header without the `"Bearer "`
prefix → 401 with the format message; prefix present but the substring
after the 7-character prefix failing verification → 403 "Invalid or
expired token"; otherwise the verified id is attached and control
continues.  Each failure returns immediately. -/
theorem C8_auth_state_machine (verify : String → Option Nat) (header : Option String) :
    (header = none → authenticateToken verify header = .reject 401 "Access token required") ∧
    (∀ h, header = some h → ("Bearer ".data.isPrefixOf h.data) = false →
      authenticateToken verify header =
        .reject 401 "Token must be in format: Bearer <token>") ∧
    (∀ h, header = some h → ("Bearer ".data.isPrefixOf h.data) = true →
      verify (h.drop 7) = none →
      authenticateToken verify header = .reject 403 "Invalid or expired token") ∧
    (∀ h uid, header = some h → ("Bearer ".data.isPrefixOf h.data) = true →
      verify (h.drop 7) = some uid →
      authenticateToken verify header = .proceed uid) := by
  refine ⟨?_, ?_, ?_, ?_⟩
  · rintro rfl; rfl
  · rintro h rfl hpre; simp [authenticateToken, hpre]
  · rintro h rfl hpre hv; simp [authenticateToken, hpre, hv]
  · rintro h uid rfl hpre hv; simp [authenticateToken, hpre, hv]

/-- **C8 witness**: a well-formed header whose token verifies to user 5
reaches the `proceed` outcome. -/
theorem C8_auth_state_machine_witness :
    authenticateToken (fun s => if s = "tok" then some 5 else none) (some "Bearer tok") =
      .proceed 5 :=
  (C8_auth_state_machine (fun s => if s = "tok" then some 5 else none)
    (some "Bearer tok")).2.2.2 "Bearer tok" 5 rfl (by decide) (by decide)

/-- **C9**: a token issued for a user and verified at once (same clock,
unmodified) yields that user id; a token verified at or past its expiry
yields the distinguished invalid result `none`; a token whose signature
does not match the recomputed one yields `none`.  `verifyToken` is a total
function into `Option`: it never throws. -/
theorem C9_token_codec (secret now userId : Nat) (t : Token) :
    verifyToken secret now (generateToken secret now userId) = some userId ∧
    (t.exp ≤ now → verifyToken secret now t = none) ∧
    (t.sig ≠ macSign secret t.userId t.iat t.exp → verifyToken secret now t = none) := by
  have hlt : now < now + 86400 := by omega
  refine ⟨by simp [verifyToken, generateToken, hlt], fun hexp => ?_, fun hsig => ?_⟩
  · unfold verifyToken
    rw [if_neg]
    rintro ⟨-, hc⟩
    omega
  · unfold verifyToken
    rw [if_neg]
    rintro ⟨hc, -⟩
    exact hsig hc

/-- **C9 witness**: round trip at user 5; the same token at its expiry
time is invalid; the token with a bumped signature is invalid. -/
theorem C9_token_codec_witness :
    verifyToken 99 0 (generateToken 99 0 5) = some 5 ∧
    verifyToken 99 86400 ⟨5, 0, 86400, macSign 99 5 0 86400⟩ = none ∧
    verifyToken 99 0 ⟨5, 0, 86400, macSign 99 5 0 86400 + 1⟩ = none :=
  ⟨(C9_token_codec 99 0 5 ⟨0, 0, 0, 0⟩).1,
   (C9_token_codec 99 86400 5 ⟨5, 0, 86400, macSign 99 5 0 86400⟩).2.1 (by decide),
   (C9_token_codec 99 0 5 ⟨5, 0, 86400, macSign 99 5 0 86400 + 1⟩).2.2 (by decide)⟩

/-- **C10**: `GET /users/:id/posts` has no validator middleware: it
rejects with 400 exactly on `NaN`, and for every id string `Number`
parses — negative, decimal, whitespace-padded, hexadecimal or exponent
forms all rejected by the `^\d+$` rule — the handler proceeds to the
storage query with the parsed number. -/
theorem C10_user_posts_skips_id_validator :
    (∀ (s : String) (q : JsNum) (posts : List PostRow), jsNumber s = some q →
      userPostsRoute s posts false =
        .ok ⟨200, .arr ((userPostsQuery q posts).map postRowJson)⟩) ∧
    jsNumber "-2" = some ⟨-2, 1⟩ ∧ userIdPatternOk "-2" = false ∧
    jsNumber "3.5" = some ⟨7, 2⟩ ∧ userIdPatternOk "3.5" = false ∧
    jsNumber " 7 " = some ⟨7, 1⟩ ∧ userIdPatternOk " 7 " = false ∧
    jsNumber "0x1F" = some ⟨31, 1⟩ ∧ userIdPatternOk "0x1F" = false ∧
    jsNumber "1e3" = some ⟨1000, 1⟩ ∧ userIdPatternOk "1e3" = false ∧
    (∀ (s : String) (posts : List PostRow), jsNumber s = none →
      userPostsRoute s posts false = .ok ⟨400, msgBody "error" "Invalid user ID"⟩) := by
  refine ⟨?_, by decide, by decide, by decide, by decide, by decide, by decide, by decide,
    by decide, by decide, by decide, ?_⟩
  · intro s q posts hq
    simp [userPostsRoute, hq]
  · intro s posts hq
    simp [userPostsRoute, hq]

/-- **C10 witness**: the id string `"-2"` (rejected by the `^\d+$` rule)
reaches the storage query with the parsed number −2. -/
theorem C10_user_posts_skips_id_validator_witness :
    userPostsRoute "-2" [] false =
      .ok ⟨200, .arr ((userPostsQuery ⟨-2, 1⟩ []).map postRowJson)⟩ :=
  C10_user_posts_skips_id_validator.1 "-2" ⟨-2, 1⟩ [] (by decide)

end HaugeRestaurant
